import Mathlib

/-!
Shallow embedding of `plugins/modules/zabbix_trigger.py` (community.zabbix fork,
module `zabbix_trigger`), together with theorems settling the specification
claims about it.  Line numbers in the doc comments refer to that source file.

The module is embedded faithfully, including its scoping slips: the local
variable environments of `main`, `generate_trigger_config` and `update_trigger`
are modelled explicitly, so that reads of names that no assignment ever binds
surface as `NameError` outcomes exactly where the interpreter would raise them.
-/

/-- A trigger tag, one element of the `tags` module parameter
(DOCUMENTATION lines 72-88 and argument spec lines 253-267). -/
structure Tag where
  tag : String
  value : Option String
deriving DecidableEq

/-- A Python value as it flows through the enum handling of the module: `None`,
a `str`, or a reference to a builtin.  The builtin case is needed because
`generate_trigger_config` reads the name `type`, which resolves to the builtin
class `type` (no parameter or local of that name exists in the method). -/
inductive PyVal where
  | pynone
  | str (s : String)
  | builtin (b : String)
deriving DecidableEq

/-- Python truthiness for the values above: `None` and the empty string are
falsy, a builtin reference is truthy. -/
def PyVal.truthy : PyVal → Bool
  | .pynone => false
  | .str s => !s.isEmpty
  | .builtin _ => true

/-- Python membership test `v in m` for a dict `m` whose keys are strings: only
an equal string matches; `None` or a builtin is never equal to a string key. -/
def PyVal.memStrDict : PyVal → List (String × String) → Bool
  | .str s, m => (m.find? fun p => p.1 == s).isSome
  | .pynone, _ => false
  | .builtin _, _ => false

/-- Dict lookup `d.get(k)` on an association list; the first binding wins, as in
a Python dict in which a key is bound once. -/
def dictGet {α : Type} (d : List (String × α)) (k : String) : Option α :=
  (d.find? fun p => p.1 == k).map Prod.snd

/-- Python exceptions and `fail_json` exits that the embedded functions can
produce. -/
inductive PyErr where
  | nameError (v : String)
  | keyError (k : String)
  | failJson (msg : String)
deriving DecidableEq

/-- The dict-valued local bindings in scope inside `generate_trigger_config`:
each enum map is assigned only inside its own `if` branch
(source lines 184, 193, 201, 209). -/
abbrev Scope : Type := List (String × List (String × String))

/-- Python subscript `mapName[key]`: resolving the map name can raise
`NameError` (line 189 references the never-assigned `pv_map`), then the key
lookup can raise `KeyError` (lines 205 and 213 subscript `status_map` with
values drawn from other domains). -/
def dictSubscript (scope : Scope) (mapName : String) (key : PyVal) : Except PyErr String :=
  match dictGet scope mapName with
  | Option.none => Except.error (PyErr.nameError mapName)
  | some m =>
    match key with
    | PyVal.str s =>
      match dictGet m s with
      | some v => Except.ok v
      | Option.none => Except.error (PyErr.keyError s)
    | PyVal.pynone => Except.error (PyErr.keyError "None")
    | PyVal.builtin b => Except.error (PyErr.keyError b)

/-- The `request` dict built by `generate_trigger_config` (lines 171-216), with
its fixed key set. -/
structure TriggerRequest where
  description : String
  expression : String
  recovery_mode : String
  tags : List Tag
  priority : String
  status : String
  type : String
  manual_close : String
deriving DecidableEq

/-- Lines 184-185. -/
def priority_map : List (String × String) :=
  [("not_classified", "0"), ("information", "1"), ("warning", "2"),
   ("average", "3"), ("high", "4"), ("disaster", "5")]

/-- Line 193. -/
def status_map : List (String × String) := [("enabled", "0"), ("disabled", "1")]

/-- Line 201. -/
def type_map : List (String × String) := [("single", "0"), ("multiple", "1")]

/-- Line 209. -/
def manual_close_map : List (String × String) := [("no", "0"), ("yes", "1")]

/-- What the name `type` denotes inside `generate_trigger_config`
(lines 200, 203, 205): the method has no parameter and no local of that name,
so the read resolves to the Python builtin class `type`. -/
def typeBuiltin : PyVal := PyVal.builtin "type"

/-- Lines 171-180 plus the four `request[...] = "0"` defaults (lines 182, 191,
199, 207): the request before any enum branch runs.  `if tags:` keeps a
non-empty list and otherwise stores the empty list. -/
def initRequest (description expression : String) (tags : Option (List Tag)) : TriggerRequest :=
  { description := description
    expression := expression
    recovery_mode := "0"
    tags := match tags with
      | some ts => if ts.isEmpty then [] else ts
      | Option.none => []
    priority := "0"
    status := "0"
    type := "0"
    manual_close := "0" }

/-- Lines 183-189: the priority branch.  A recognized value reaches
`request["priority"] = pv_map[priority]`, and the name `pv_map` is bound
nowhere, while an unrecognized truthy value hits `fail_json`. -/
def priorityBranch (priority : PyVal) : Scope × TriggerRequest → Except PyErr (Scope × TriggerRequest)
  | (scope, request) =>
    if priority.truthy then
      let scope := ("priority_map", priority_map) :: scope
      if !priority.memStrDict priority_map then
        Except.error (PyErr.failJson "Wrong value for \x27priority\x27 parameter.")
      else
        (dictSubscript scope "pv_map" priority).map fun v => (scope, { request with priority := v })
    else Except.ok (scope, request)

/-- Lines 192-197: the status branch, the only one whose success arm subscripts
the map it also tested membership in. -/
def statusBranch (status : PyVal) : Scope × TriggerRequest → Except PyErr (Scope × TriggerRequest)
  | (scope, request) =>
    if status.truthy then
      let scope := ("status_map", status_map) :: scope
      if !status.memStrDict status_map then
        Except.error (PyErr.failJson "Wrong value for \x27status\x27 parameter.")
      else
        (dictSubscript scope "status_map" status).map fun v => (scope, { request with status := v })
    else Except.ok (scope, request)

/-- Lines 200-205: the type branch.  The tested value is `typeBuiltin`, which
is truthy and is not among the string keys of `type_map`; the success arm would
subscript `status_map`. -/
def typeBranch : Scope × TriggerRequest → Except PyErr (Scope × TriggerRequest)
  | (scope, request) =>
    if typeBuiltin.truthy then
      let scope := ("type_map", type_map) :: scope
      if !typeBuiltin.memStrDict type_map then
        Except.error (PyErr.failJson "Wrong value for \x27type\x27 parameter.")
      else
        (dictSubscript scope "status_map" typeBuiltin).map fun v => (scope, { request with type := v })
    else Except.ok (scope, request)

/-- Lines 208-213: the manual_close branch; its success arm subscripts
`status_map` (line 213), not `manual_close_map`. -/
def manualCloseBranch (manual_close : PyVal) : Scope × TriggerRequest → Except PyErr (Scope × TriggerRequest)
  | (scope, request) =>
    if manual_close.truthy then
      let scope := ("manual_close_map", manual_close_map) :: scope
      if !manual_close.memStrDict manual_close_map then
        Except.error (PyErr.failJson "Wrong value for \x27manual_close\x27 parameter.")
      else
        (dictSubscript scope "status_map" manual_close).map fun v => (scope, { request with manual_close := v })
    else Except.ok (scope, request)

/-- Lines 169-216: `Trigger.generate_trigger_config`, the desired-state
builder, as the sequence of its four enum branches over the initial request. -/
def generate_trigger_config (description expression : String)
    (priority status recovery_mode manual_close : PyVal) (tags : Option (List Tag)) :
    Except PyErr TriggerRequest :=
  Except.map Prod.snd
    (((((Except.ok (([], initRequest description expression tags) : Scope × TriggerRequest)).bind
      (priorityBranch priority)).bind
      (statusBranch status)).bind
      typeBranch).bind
      (manualCloseBranch manual_close))

/-- A field value of a live wire trigger object: a string wire field or a
list-of-tags field. -/
inductive FieldVal where
  | str (v : String)
  | tagList (ts : List Tag)
deriving DecidableEq

/-- A remote `self._zapi.trigger.*` call, with the payload the module sends. -/
inductive ZCall where
  | getTriggers (host : String)
  | dumpTriggers (trigger_ids : FieldVal)
  | create (request : TriggerRequest)
  | update (request : TriggerRequest) (triggerid : FieldVal)
  | delete (trigger_ids : List FieldVal)
deriving DecidableEq

/-- How one invocation terminates: a normal `exit_json`, a `fail_json`, an
uncaught Python exception, or falling off the end of `main`. -/
inductive Outcome where
  | exitJson (changed : Bool) (msg : Option String)
  | failJson (msg : String)
  | nameError (v : String)
  | keyError (k : String)
  | indexError
  | fellThrough
deriving DecidableEq

/-- The terminal outcome of a run together with every remote call issued, in
order. -/
structure RunResult where
  outcome : Outcome
  calls : List ZCall
deriving DecidableEq

/-- An exception escaping a helper is an uncaught exception of the run; a
`fail_json` exits the module. -/
def pyErrOutcome : PyErr → Outcome
  | .nameError v => Outcome.nameError v
  | .keyError k => Outcome.keyError k
  | .failJson m => Outcome.failJson m

/-- The remote server behind `self._zapi.trigger.get`: `triggersForHost` is the
result of `trigger.get({"filter": {"host": host}})` (line 150) and `dump` the
result of the extended `trigger.get` of `dump_triggers` (lines 161-167), keyed
by the single trigger id that `update_trigger` passes. -/
structure ZabbixAPI where
  triggersForHost : String → List (List (String × FieldVal))
  dump : FieldVal → List (List (String × FieldVal))

/-- Python subscript `trigger["k"]` on a live object dict: `KeyError` when the
key is absent. -/
def getItem (trigger : List (String × FieldVal)) (k : String) : Except PyErr FieldVal :=
  match dictGet trigger k with
  | some v => Except.ok v
  | Option.none => Except.error (PyErr.keyError k)

/-- Lines 148-154: `Trigger.get_trigger_ids` collects `trigger["triggerid"]` of
every returned trigger whose `description` equals `trigger_name`. -/
def get_trigger_ids (api : ZabbixAPI) (host trigger_name : String) :
    Except PyErr (List FieldVal) :=
  (api.triggersForHost host).foldlM
    (fun trigger_ids trigger => do
      let d ← getItem trigger "description"
      if d = FieldVal.str trigger_name then
        let tid ← getItem trigger "triggerid"
        pure (trigger_ids ++ [tid])
      else
        pure trigger_ids)
    ([] : List FieldVal)

/-- Lines 161-167: `Trigger.dump_triggers`, a read-only extended get. -/
def dump_triggers (api : ZabbixAPI) (trigger_ids : FieldVal) : List (List (String × FieldVal)) :=
  api.dump trigger_ids

/-- Modelled from the spec: `zabbix_utils.helper_compare_dictionaries` composed
with `zabbix_utils.helper_cleanup_data` (line 229) is code of this repository
that lives in `plugins/module_utils/helpers.py`, which is not among the
provided sources.  Spec section 4.3: for each field present in `desired`,
compare it to the same-named field in `live` and include the desired value
exactly when unequal; fields present only in `live` are never considered. -/
def helper_compare_dictionaries (desired live : List (String × FieldVal)) :
    List (String × FieldVal) :=
  desired.filter fun kv => decide (dictGet live kv.1 ≠ some kv.2)

/-- Result of a helper method that either exits the process (via `exit_json`,
`fail_json` or an exception) or returns to `main`, having issued the recorded
calls. -/
inductive CallResult where
  | exited (outcome : Outcome) (calls : List ZCall)
  | returned (calls : List ZCall)
deriving DecidableEq

/-- Lines 156-159: `Trigger.delete_trigger`; check mode exits before the
delete call. -/
def delete_trigger (checkMode : Bool) (trigger_ids : List FieldVal) : CallResult :=
  if checkMode then CallResult.exited (Outcome.exitJson true Option.none) []
  else CallResult.returned [ZCall.delete trigger_ids]

/-- Lines 218-222: `Trigger.create_trigger`; check mode exits first, otherwise
the generated config is built and sent to `trigger.create`. -/
def create_trigger (checkMode : Bool) (description expression : String)
    (priority status recovery_mode manual_close : PyVal) (tags : Option (List Tag)) :
    CallResult :=
  if checkMode then CallResult.exited (Outcome.exitJson true Option.none) []
  else
    match generate_trigger_config description expression priority status recovery_mode manual_close tags with
    | Except.error e => CallResult.exited (pyErrOutcome e) []
    | Except.ok request => CallResult.returned [ZCall.create request]

/-- The string-valued local bindings of `update_trigger` (its parameters).
The message templates on lines 232 and 238 interpolate the variable `name`,
which is not among them and is bound nowhere in the method. -/
def updateScope (description expression : String) : List (String × String) :=
  [("description", description), ("expression", expression)]

/-- The `request` record viewed as the dict that is compared against the live
object (line 229) and sent to `trigger.update` (line 237). -/
def requestDict (r : TriggerRequest) : List (String × FieldVal) :=
  [("description", FieldVal.str r.description), ("expression", FieldVal.str r.expression),
   ("recovery_mode", FieldVal.str r.recovery_mode), ("tags", FieldVal.tagList r.tags),
   ("priority", FieldVal.str r.priority), ("status", FieldVal.str r.status),
   ("type", FieldVal.str r.type), ("manual_close", FieldVal.str r.manual_close)]

/-- Lines 224-238: `Trigger.update_trigger`.  It builds the desired config,
dumps the live object, diffs, exits on an empty diff, honours check mode, and
otherwise sends the whole generated config plus `triggerid` to
`trigger.update`; both exit messages interpolate the unbound `name`. -/
def update_trigger (checkMode : Bool) (api : ZabbixAPI) (trigger_id : FieldVal)
    (description expression : String) (priority status recovery_mode manual_close : PyVal)
    (tags : Option (List Tag)) : Outcome × List ZCall :=
  match generate_trigger_config description expression priority status recovery_mode manual_close tags with
  | Except.error e => (pyErrOutcome e, [])
  | Except.ok generated_config =>
    match dump_triggers api trigger_id with
    | [] => (Outcome.indexError, [ZCall.dumpTriggers trigger_id])
    | live_config :: _ =>
      let difference := helper_compare_dictionaries (requestDict generated_config) live_config
      if difference.isEmpty then
        match dictGet (updateScope description expression) "name" with
        | some nm => (Outcome.exitJson false (some ("Trigger " ++ nm ++ " up to date")),
                      [ZCall.dumpTriggers trigger_id])
        | Option.none => (Outcome.nameError "name", [ZCall.dumpTriggers trigger_id])
      else if checkMode then
        (Outcome.exitJson true Option.none, [ZCall.dumpTriggers trigger_id])
      else
        match dictGet (updateScope description expression) "name" with
        | some nm => (Outcome.exitJson true (some ("Trigger " ++ nm ++ " updated")),
                      [ZCall.dumpTriggers trigger_id, ZCall.update generated_config trigger_id])
        | Option.none => (Outcome.nameError "name",
                          [ZCall.dumpTriggers trigger_id, ZCall.update generated_config trigger_id])

/-- The validated module parameters (argument spec, lines 242-268): `state`
defaults to "present"; the optional enum options default to `None`. -/
structure ModuleParams where
  host : String
  name : String
  expression : String
  state : String
  priority : PyVal
  recovery_mode : PyVal
  status : PyVal
  type : PyVal
  manual_close : PyVal
  tags : Option (List Tag)

/-- The string-valued locals bound in `main` before line 288 (assignments on
lines 274-277).  Lines 278-283 additionally bind `priority`, `status`, `type`,
`manual_close`, `recovery_mode` and `tags` (non-string values, modelled as the
`ModuleParams` fields and passed positionally below).  No assignment in `main`
binds the name `name`: the module parameter `name` lands in the local
`description` (line 275). -/
def mainScope (p : ModuleParams) : List (String × String) :=
  [("host", p.host), ("description", p.name), ("expression", p.expression), ("state", p.state)]

/-- Lines 288-304 under the assumption that the two argument names of line 288
resolved to `host` and `nm`: the reconciliation state machine of `main`,
recording every remote call in order. -/
def mainWithLookup (checkMode : Bool) (p : ModuleParams) (api : ZabbixAPI)
    (host nm : String) : RunResult :=
  match get_trigger_ids api host nm with
  | Except.error e => { outcome := pyErrOutcome e, calls := [ZCall.getTriggers host] }
  | Except.ok trigger_ids =>
    if p.state == "absent" then
      match trigger_ids with
      | [] => { outcome := Outcome.exitJson false (some ("Trigger not found, no change: " ++ nm)),
                calls := [ZCall.getTriggers host] }
      | _ :: _ =>
        match delete_trigger checkMode trigger_ids with
        | CallResult.exited o cs => { outcome := o, calls := ZCall.getTriggers host :: cs }
        | CallResult.returned cs =>
          { outcome := Outcome.exitJson true (some ("Successfully deleted trigger(s) " ++ nm)),
            calls := ZCall.getTriggers host :: cs }
    else if p.state == "present" then
      match trigger_ids with
      | [] =>
        match create_trigger checkMode p.name p.expression p.priority p.status p.recovery_mode p.manual_close p.tags with
        | CallResult.exited o cs => { outcome := o, calls := ZCall.getTriggers host :: cs }
        | CallResult.returned cs =>
          { outcome := Outcome.exitJson true (some ("Trigger " ++ nm ++ " created")),
            calls := ZCall.getTriggers host :: cs }
      | tid :: _ =>
        let r := update_trigger checkMode api tid p.name p.expression p.priority p.status p.recovery_mode p.manual_close p.tags
        { outcome := r.1, calls := ZCall.getTriggers host :: r.2 }
    else
      { outcome := Outcome.fellThrough, calls := [ZCall.getTriggers host] }

/-- Lines 241-304: `main`.  The assignments of lines 274-283 never bind the
name `name`, yet line 288 evaluates `trigger.get_trigger_ids(host, name)`;
Python resolves the argument names left to right before issuing the call, so
the run is modelled as resolving `host`, then `name`, against main's scope. -/
def mainRun (checkMode : Bool) (p : ModuleParams) (api : ZabbixAPI) : RunResult :=
  match dictGet (mainScope p) "host" with
  | Option.none => { outcome := Outcome.nameError "host", calls := [] }
  | some host =>
    match dictGet (mainScope p) "name" with
    | Option.none => { outcome := Outcome.nameError "name", calls := [] }
    | some nm => mainWithLookup checkMode p api host nm

/-- The type branch aborts on every input: its tested value is the truthy
builtin, which is not a key of `type_map`. -/
theorem typeBranch_eq_error (sr : Scope × TriggerRequest) :
    typeBranch sr = Except.error (PyErr.failJson "Wrong value for \x27type\x27 parameter.") := rfl

theorem except_ok_bind {α β : Type} (a : α) (f : α → Except PyErr β) :
    (Except.ok a : Except PyErr α).bind f = f a := rfl

theorem except_error_bind {α β : Type} (e : PyErr) (f : α → Except PyErr β) :
    (Except.error e : Except PyErr α).bind f = (Except.error e : Except PyErr β) := rfl

/-- Whatever the earlier branches produced, binding the type branch yields an
error. -/
theorem bind_typeBranch_error (x : Except PyErr (Scope × TriggerRequest)) :
    ∃ e, x.bind typeBranch = Except.error e := by
  cases x with
  | error e => exact ⟨e, rfl⟩
  | ok sr => exact ⟨PyErr.failJson "Wrong value for \x27type\x27 parameter.", typeBranch_eq_error sr⟩

/-- `generate_trigger_config` always ends in an exception or a `fail_json`. -/
theorem generate_is_error (description expression : String)
    (priority status recovery_mode manual_close : PyVal) (tags : Option (List Tag)) :
    ∃ e, generate_trigger_config description expression priority status recovery_mode manual_close tags
      = Except.error e := by
  obtain ⟨e, he⟩ := bind_typeBranch_error
    ((((Except.ok (([], initRequest description expression tags) : Scope × TriggerRequest)).bind
      (priorityBranch priority)).bind (statusBranch status)))
  refine ⟨e, ?_⟩
  unfold generate_trigger_config
  rw [he]
  rfl

/-- When the priority and status branches are skipped (falsy values), the run
reaches the type branch and aborts there with its message. -/
theorem generate_type_fail (description expression : String)
    (priority status recovery_mode manual_close : PyVal) (tags : Option (List Tag))
    (hp : priority.truthy = false) (hs : status.truthy = false) :
    generate_trigger_config description expression priority status recovery_mode manual_close tags
      = Except.error (PyErr.failJson "Wrong value for \x27type\x27 parameter.") := by
  have h1 : priorityBranch priority ([], initRequest description expression tags)
      = Except.ok ([], initRequest description expression tags) := by
    simp [priorityBranch, hp]
  have h2 : statusBranch status ([], initRequest description expression tags)
      = Except.ok ([], initRequest description expression tags) := by
    simp [statusBranch, hs]
  unfold generate_trigger_config
  rw [except_ok_bind, h1, except_ok_bind, h2, except_ok_bind, typeBranch_eq_error,
    except_error_bind]
  rfl

/-- The declaration of spec Scenarios A, B and C: svc-down on h1, only the
required fields supplied, present state. -/
def scenarioDecl : ModuleParams :=
  { host := "h1", name := "svc-down", expression := "last(/h1/x)=1", state := "present",
    priority := PyVal.pynone, recovery_mode := PyVal.pynone, status := PyVal.pynone,
    type := PyVal.pynone, manual_close := PyVal.pynone, tags := Option.none }

/-- The same declaration with absent state (spec Scenario D). -/
def absentDecl : ModuleParams := { scenarioDecl with state := "absent" }

/-- A remote server with no triggers at all. -/
def emptyAPI : ZabbixAPI :=
  { triggersForHost := fun _ => [], dump := fun _ => [] }

/-- The live wire object of Scenario B: identical to the declared defaults. -/
def liveMatching : List (String × FieldVal) :=
  [("triggerid", FieldVal.str "10"), ("description", FieldVal.str "svc-down"),
   ("expression", FieldVal.str "last(/h1/x)=1"), ("recovery_mode", FieldVal.str "0"),
   ("priority", FieldVal.str "0"), ("status", FieldVal.str "0"),
   ("type", FieldVal.str "0"), ("manual_close", FieldVal.str "0"),
   ("tags", FieldVal.tagList [])]

/-- The live wire object of Scenario C: the same trigger but its `status` wire
code differs from the declared one. -/
def liveStatusDiffers : List (String × FieldVal) :=
  [("triggerid", FieldVal.str "11"), ("description", FieldVal.str "svc-down"),
   ("expression", FieldVal.str "last(/h1/x)=1"), ("recovery_mode", FieldVal.str "0"),
   ("priority", FieldVal.str "0"), ("status", FieldVal.str "1"),
   ("type", FieldVal.str "0"), ("manual_close", FieldVal.str "0"),
   ("tags", FieldVal.tagList [])]

/-- Remote state of Scenario B: exactly one live trigger, already matching. -/
def apiScenarioB : ZabbixAPI :=
  { triggersForHost := fun h => if h = "h1" then [liveMatching] else [],
    dump := fun tid => if tid = FieldVal.str "10" then [liveMatching] else [] }

/-- Remote state of Scenario C: exactly one live trigger whose status wire code
differs. -/
def apiScenarioC : ZabbixAPI :=
  { triggersForHost := fun h => if h = "h1" then [liveStatusDiffers] else [],
    dump := fun tid => if tid = FieldVal.str "11" then [liveStatusDiffers] else [] }

/-- Remote state of Scenario D: two triggers named svc-down on h1. -/
def apiScenarioD : ZabbixAPI :=
  { triggersForHost := fun h =>
      if h = "h1" then
        [[("triggerid", FieldVal.str "21"), ("description", FieldVal.str "svc-down")],
         [("triggerid", FieldVal.str "22"), ("description", FieldVal.str "svc-down")]]
      else [],
    dump := fun _ => [] }

/-- C10: every invocation of `main`, for any check-mode flag, any parameters
and any remote state, terminates with a `NameError` on the unbound variable
`name` at the line 288 lookup call, before the state-machine decision and
before any remote call is issued. -/
theorem main_always_raises_nameError (checkMode : Bool) (p : ModuleParams) (api : ZabbixAPI) :
    mainRun checkMode p api = { outcome := Outcome.nameError "name", calls := [] } := rfl

/-- C1: refuted by the code as shipped.  With the Scenario C declaration and a
single matching live trigger whose `status` wire code differs, the run
terminates with `NameError` on the unbound variable `name` at the lookup call
and issues no remote call at all, instead of reporting changed: updated with
one minimal `update` call. -/
theorem scenarioC_no_update_call :
    mainRun false scenarioDecl apiScenarioC
      = { outcome := Outcome.nameError "name", calls := [] } := rfl

/-- C2: refuted by the code as shipped.  In check mode, with the Scenario C
declaration and a live trigger whose status differs, the run aborts with
`NameError` before the read-only lookup: no call of any kind is issued, so the
claimed "lookup and diff still run" part of dry-run behaviour never happens
(the zero-mutating-calls part holds only vacuously). -/
theorem check_mode_aborts_before_lookup :
    mainRun true scenarioDecl apiScenarioC
      = { outcome := Outcome.nameError "name", calls := [] } := rfl

/-- C3: refuted by the code as shipped.  Encoding the recognized priority value
"warning" does not produce wire code "2": the success arm reads the undefined
name `pv_map` and raises `NameError`.  And with a recognized status and
manual_close, the builder still fails, in the type branch, so no recognized
value of those domains ever surfaces in a returned config. -/
theorem encode_broken_eval :
    generate_trigger_config "d" "e" (PyVal.str "warning") PyVal.pynone PyVal.pynone
      PyVal.pynone Option.none = Except.error (PyErr.nameError "pv_map") ∧
    generate_trigger_config "d" "e" PyVal.pynone (PyVal.str "disabled") PyVal.pynone
      (PyVal.str "yes") Option.none
      = Except.error (PyErr.failJson "Wrong value for \x27type\x27 parameter.") :=
  ⟨rfl, rfl⟩

/-- C4: refuted by the code as shipped.  The Scenario A declaration against an
empty remote state terminates with `NameError` on `name` and issues zero calls;
no `create` call with the defaulted payload is ever made. -/
theorem scenarioA_no_create_call :
    mainRun false scenarioDecl emptyAPI
      = { outcome := Outcome.nameError "name", calls := [] } := rfl

/-- C5: refuted by the code as shipped.  A declaration with the unrecognized
priority "urgent" aborts with `NameError` on `name`, not with the invalid-enum
failure; zero remote calls is true, but only because nothing runs.  The second
conjunct shows where the invalid-enum failure would arise: inside
`generate_trigger_config`, which `main` never reaches. -/
theorem invalid_priority_not_enum_error :
    mainRun false { scenarioDecl with priority := PyVal.str "urgent" } emptyAPI
      = { outcome := Outcome.nameError "name", calls := [] } ∧
    generate_trigger_config "svc-down" "last(/h1/x)=1" (PyVal.str "urgent") PyVal.pynone
      PyVal.pynone PyVal.pynone Option.none
      = Except.error (PyErr.failJson "Wrong value for \x27priority\x27 parameter.") :=
  ⟨rfl, rfl⟩

/-- C6: refuted by the code as shipped.  With the Scenario B declaration and one
live trigger already identical to the declared fields, the run terminates with
`NameError` instead of reporting no change, so the second application of an
(unachievable) converged state can never report "no change". -/
theorem scenarioB_no_idempotent_report :
    mainRun false scenarioDecl apiScenarioB
      = { outcome := Outcome.nameError "name", calls := [] } := rfl

/-- C7: refuted by the code as shipped.  An absent-state declaration terminates
with `NameError` before the state check, both when two triggers match (no
delete call carrying both ids is made) and when none matches (no "no change"
report is made). -/
theorem absent_state_no_delete_call :
    mainRun false absentDecl apiScenarioD
      = { outcome := Outcome.nameError "name", calls := [] } ∧
    mainRun false absentDecl emptyAPI
      = { outcome := Outcome.nameError "name", calls := [] } :=
  ⟨rfl, rfl⟩

/-- Adding a binding under a key that is not a key of `desired` does not change
any lookup the diff performs. -/
theorem dictGet_cons_of_not_desired {α : Type} (live : List (String × α)) (k x : String)
    (v : α) (hne : x ≠ k) : dictGet ((k, v) :: live) x = dictGet live x := by
  unfold dictGet
  rw [List.find?_cons_of_neg]
  simp
  exact fun h => absurd h.symm hne

/-- C8: the diff is asymmetric and desired-driven.  Every entry of the diff
result is an entry of `desired` (so server-managed fields present only in the
live object never appear in it), and prepending to the live object an extra
field whose key is absent from `desired` leaves the diff result unchanged. -/
theorem diff_desired_driven (desired live : List (String × FieldVal)) (k : String)
    (v : FieldVal) :
    (∀ kv ∈ helper_compare_dictionaries desired live, kv ∈ desired) ∧
    (dictGet desired k = Option.none →
      helper_compare_dictionaries desired ((k, v) :: live)
        = helper_compare_dictionaries desired live) := by
  constructor
  · intro kv hkv
    exact (List.mem_filter.mp hkv).1
  · intro hk
    have hfind : desired.find? (fun p => p.1 == k) = Option.none := by
      unfold dictGet at hk
      cases hfe : desired.find? (fun p => p.1 == k) with
      | none => rfl
      | some q => rw [hfe] at hk; exact Option.noConfusion hk
    unfold helper_compare_dictionaries
    apply List.filter_congr
    intro kv hkv
    have hne : (kv.1 == k) = false := by
      simpa using List.find?_eq_none.mp hfind kv hkv
    rw [dictGet_cons_of_not_desired live k kv.1 v (by simpa using hne)]

/-- Witness for C8 at concrete dictionaries: prepending the server-managed
field `hosts` to the live object leaves the diff unchanged. -/
theorem diff_desired_driven_witness :
    helper_compare_dictionaries [("status", FieldVal.str "0")]
        (("hosts", FieldVal.str "h1") :: [("triggerid", FieldVal.str "10"), ("status", FieldVal.str "1")])
      = helper_compare_dictionaries [("status", FieldVal.str "0")]
        [("triggerid", FieldVal.str "10"), ("status", FieldVal.str "1")] :=
  (diff_desired_driven [("status", FieldVal.str "0")]
      [("triggerid", FieldVal.str "10"), ("status", FieldVal.str "1")]
      "hosts" (FieldVal.str "h1")).2 (by decide)

/-- C9 counterexample: the failure branch "Wrong value for type parameter" is
not reached on every call.  With the recognized priority "warning" the call
aborts earlier, in the priority branch, with a `NameError` on the undefined
`pv_map` - a different result. -/
theorem generate_type_branch_not_always_reached :
    generate_trigger_config "svc-down" "last(/h1/x)=1" (PyVal.str "warning") PyVal.pynone
      PyVal.pynone PyVal.pynone Option.none = Except.error (PyErr.nameError "pv_map") ∧
    (Except.error (PyErr.nameError "pv_map") : Except PyErr TriggerRequest)
      ≠ Except.error (PyErr.failJson "Wrong value for \x27type\x27 parameter.") := by
  refine ⟨rfl, fun h => ?_⟩
  injection h with h2
  exact PyErr.noConfusion h2

/-- C9 as amended: `generate_trigger_config` never returns successfully, and
the type failure branch fires on every call in which the priority and status
branches do not abort first, in particular whenever both are unset or empty;
consequently `create_trigger` never reaches its `trigger.create` call and
`update_trigger` issues no remote call at all. -/
theorem generate_never_succeeds (description expression : String)
    (priority status recovery_mode manual_close : PyVal) (tags : Option (List Tag)) :
    (∀ req, generate_trigger_config description expression priority status recovery_mode
      manual_close tags ≠ Except.ok req) ∧
    (priority.truthy = false → status.truthy = false →
      generate_trigger_config description expression priority status recovery_mode
        manual_close tags
        = Except.error (PyErr.failJson "Wrong value for \x27type\x27 parameter.")) ∧
    (∀ checkMode cs, create_trigger checkMode description expression priority status
      recovery_mode manual_close tags ≠ CallResult.returned cs) ∧
    (∀ checkMode api tid,
      (update_trigger checkMode api tid description expression priority status
        recovery_mode manual_close tags).2 = []) := by
  obtain ⟨e, he⟩ := generate_is_error description expression priority status recovery_mode
    manual_close tags
  refine ⟨?_, ?_, ?_, ?_⟩
  · intro req h
    rw [he] at h
    exact Except.noConfusion h
  · intro hp hs
    exact generate_type_fail description expression priority status recovery_mode
      manual_close tags hp hs
  · intro checkMode cs h
    cases checkMode <;> simp [create_trigger, he] at h
  · intro checkMode api tid
    simp [update_trigger, he]

/-- Witness for C9 at a concrete input with priority and status unset: the
call fails in the type branch. -/
theorem generate_never_succeeds_witness :
    generate_trigger_config "svc-down" "last(/h1/x)=1" PyVal.pynone PyVal.pynone
      PyVal.pynone PyVal.pynone Option.none
      = Except.error (PyErr.failJson "Wrong value for \x27type\x27 parameter.") :=
  (generate_never_succeeds "svc-down" "last(/h1/x)=1" PyVal.pynone PyVal.pynone
    PyVal.pynone PyVal.pynone Option.none).2.1 (by decide) (by decide)
